import Mathlib

/-!
Shallow embedding of the particle-effect simulation core of `bevy_enoki`
(`crates/enoki2d/src/update.rs`).  Machine floats are modelled as rationals;
the two transcendental functions used by the code (`exp` in the damping
factors of `Particle::get_transform`, and the square root hidden inside
`normalize_or_zero`) are passed as explicit function parameters `rexp` and
`rsqrt`, since no claim depends on their values.
-/

namespace Enoki

/-- Planar vector (glam `Vec2`), components as rationals. -/
structure Vec2 where
  x : ℚ
  y : ℚ
deriving DecidableEq, Repr

/-- Spatial vector (glam `Vec3`). -/
structure Vec3 where
  x : ℚ
  y : ℚ
  z : ℚ
deriving DecidableEq, Repr

/-- Four-component vector (glam `Vec4`). -/
structure Vec4 where
  x : ℚ
  y : ℚ
  z : ℚ
  w : ℚ
deriving DecidableEq, Repr

def Vec2.zero : Vec2 := ⟨0, 0⟩

def Vec3.zero : Vec3 := ⟨0, 0, 0⟩

def Vec2.add (a b : Vec2) : Vec2 := ⟨a.x + b.x, a.y + b.y⟩

def Vec3.add (a b : Vec3) : Vec3 := ⟨a.x + b.x, a.y + b.y, a.z + b.z⟩

def Vec2.smul (c : ℚ) (v : Vec2) : Vec2 := ⟨c * v.x, c * v.y⟩

def Vec3.smul (c : ℚ) (v : Vec3) : Vec3 := ⟨c * v.x, c * v.y, c * v.z⟩

/-- glam `Vec2::extend`. -/
def Vec2.extend (v : Vec2) (z : ℚ) : Vec3 := ⟨v.x, v.y, z⟩

/-- glam `Vec3::extend`. -/
def Vec3.extend (v : Vec3) (w : ℚ) : Vec4 := ⟨v.x, v.y, v.z, w⟩

/-- glam `Vec4::xyz`. -/
def Vec4.xyz (v : Vec4) : Vec3 := ⟨v.x, v.y, v.z⟩

/-- glam `Vec2::rotate`: complex-style product rotating `b` by the angle of `a`. -/
def Vec2.rotate (a b : Vec2) : Vec2 :=
  ⟨a.x * b.x - a.y * b.y, a.y * b.x + a.x * b.y⟩

/-- glam `Vec2::normalize_or_zero`, with the square root abstracted as `rsqrt`:
returns zero for the zero vector, otherwise divides by the length. -/
def Vec2.normalize_or_zero (rsqrt : ℚ → ℚ) (v : Vec2) : Vec2 :=
  if v.x * v.x + v.y * v.y = 0 then Vec2.zero
  else Vec2.smul (1 / rsqrt (v.x * v.x + v.y * v.y)) v

/-- glam `Vec3::normalize_or_zero`, square root abstracted as `rsqrt`. -/
def Vec3.normalize_or_zero (rsqrt : ℚ → ℚ) (v : Vec3) : Vec3 :=
  if v.x * v.x + v.y * v.y + v.z * v.z = 0 then Vec3.zero
  else Vec3.smul (1 / rsqrt (v.x * v.x + v.y * v.y + v.z * v.z)) v

/-- bevy `LinearRgba` colour. -/
structure LinearRgba where
  red : ℚ
  green : ℚ
  blue : ℚ
  alpha : ℚ
deriving DecidableEq, Repr

def LinearRgba.WHITE : LinearRgba := ⟨1, 1, 1, 1⟩

/-- Modelled from the spec: the file `values.rs` of the repository (absent from the
sources) defines the randomized-or-fixed scalar `Rval`; per the spec a sampled
field is drawn uniformly at random within its configured range, so `rand`
takes the uniform draw `u ∈ [0,1]` explicitly and interpolates the range. -/
structure Rval where
  lo : ℚ
  hi : ℚ
deriving DecidableEq, Repr

def Rval.rand (v : Rval) (u : ℚ) : ℚ := v.lo + u * (v.hi - v.lo)

/-- Modelled from the spec: 2D randomized value (e.g. initial direction),
sampled componentwise within its configured range. -/
structure Rval2 where
  lo : Vec2
  hi : Vec2
deriving DecidableEq, Repr

def Rval2.rand (v : Rval2) (u1 u2 : ℚ) : Vec2 :=
  ⟨v.lo.x + u1 * (v.hi.x - v.lo.x), v.lo.y + u2 * (v.hi.y - v.lo.y)⟩

/-- The `EmissionShape` variants `Point` and `Circle(radius)`. -/
inductive EmissionShape where
  | Point : EmissionShape
  | Circle : ℚ → EmissionShape
deriving DecidableEq, Repr

/-- The effect definition `Particle2dEffect` (its struct lives outside the
given sources; fields are taken from the data model of the spec and from the field
accesses in `update.rs`).  A curve (`values.rs`, absent) is modelled from the
spec as an interpolation function over normalized age, which is all
`update.rs` uses of it (`lerp`). -/
structure Particle2dEffect where
  spawn_rate : ℚ
  spawn_amount : ℕ
  emission_shape : EmissionShape
  direction : Option Rval2
  linear_speed : Option Rval
  angular_speed : Option Rval
  scale : Option Rval
  lifetime : Rval
  gravity_direction : Option Rval2
  gravity_speed : Option Rval
  linear_damp : Option Rval
  angular_damp : Option Rval
  linear_acceleration : Option Rval
  angular_acceleration : Option Rval
  color : Option LinearRgba
  scale_curve : Option (ℚ → ℚ)
  color_curve : Option (ℚ → LinearRgba)

/-- The per-particle state (struct `Particle` in `update.rs`). -/
structure Particle where
  start_pos : Vec3
  direction : Vec2
  scale : ℚ
  gravity : Vec3
  duration : ℚ
  duration_fraction : ℚ
  velocity : Vec4
  color : LinearRgba
  frame : ℕ
  linear_acceleration : ℚ
  linear_damp : ℚ
  angular_acceleration : ℚ
  angular_damp : ℚ

/-- The render transform produced by `Particle::get_transform`: translation,
uniform scale, and the accumulated local-Z rotation angle (the code starts
from an identity rotation and applies a single `rotate_local_z`). -/
structure Transform where
  translation : Vec3
  rotation : ℚ
  scale : Vec3
deriving DecidableEq, Repr

/-- Embeds `Particle::get_transform` (update.rs lines 69–99), with `f32::exp`
abstracted as `rexp`. -/
def Particle.get_transform (rexp : ℚ → ℚ) (p : Particle) : Transform :=
  let progress := p.duration_fraction
  let lin_velo := p.velocity.xyz
  let angular_vel := p.velocity.w
  let lin_damp_factor := rexp (-p.linear_damp * progress * p.duration)
  let ang_damp_factor := rexp (-p.angular_damp * progress * p.duration)
  let lin_accel_contribution := p.linear_acceleration * progress * p.duration
  let ang_accel_contribution := p.angular_acceleration * progress * p.duration
  let new_lin_velo :=
    Vec3.add (Vec3.smul lin_damp_factor lin_velo)
      (Vec3.smul lin_accel_contribution (p.direction.extend 0))
  let new_angular_vel := angular_vel * ang_damp_factor + ang_accel_contribution
  let time_step := progress * p.duration
  let displacement :=
    Vec3.add (Vec3.smul time_step new_lin_velo)
      (Vec3.smul (1/2 * time_step * time_step) p.gravity)
  { translation := Vec3.add p.start_pos displacement
    rotation := new_angular_vel * time_step
    scale := ⟨p.scale, p.scale, p.scale⟩ }

/-- Modelled from the spec: the `InstanceData` render record (`material.rs`,
absent from the sources) is pose + colour + normalized age, derived 1:1 from a
particle; `update.rs` builds it via `(&particle).into()` and the three update
methods below. -/
structure InstanceData where
  transform : Transform
  color : LinearRgba
  duration_fraction : ℚ

def InstanceData.update_duration_fraction (d : InstanceData) (f : ℚ) : InstanceData :=
  { d with duration_fraction := f }

def InstanceData.update_transform (rexp : ℚ → ℚ) (d : InstanceData) (p : Particle) : InstanceData :=
  { d with transform := p.get_transform rexp }

def InstanceData.update_color (d : InstanceData) (c : LinearRgba) : InstanceData :=
  { d with color := c }

/-- Conversion `(&particle).into()` for `InstanceData`, modelled from the spec: the
render record is recomputed from the particle. -/
def instanceOf (rexp : ℚ → ℚ) (p : Particle) : InstanceData :=
  { transform := p.get_transform rexp
    color := p.color
    duration_fraction := p.duration_fraction }

/-- Modelled from the spec: the repeating bevy `Timer` (an external dependency),
the cadence accumulator.  `tick` adds the delta; a repeating timer with zero
period is always finished, otherwise it reports `finished` exactly on ticks
where the accumulated time reached the period, wrapping the remainder — the
level-triggered, at-most-once-per-tick firing described by the spec. -/
structure Timer where
  duration : ℚ
  elapsed : ℚ
  finished : Bool
deriving DecidableEq, Repr

def Timer.set_duration (t : Timer) (d : ℚ) : Timer := { t with duration := d }

def Timer.tick (t : Timer) (delta : ℚ) : Timer :=
  if t.duration ≤ 0 then { t with elapsed := 0, finished := true }
  else
    let total := t.elapsed + delta
    if t.duration ≤ total then
      { t with elapsed := total - t.duration * (⌊total / t.duration⌋ : ℤ), finished := true }
    else
      { t with elapsed := total, finished := false }

/-- The `ParticleSpawnerState` component (update.rs lines 20–25). -/
structure ParticleSpawnerState where
  max_particles : ℕ
  active : Bool
  timer : Timer

/-- The `OneShot` tag component (update.rs lines 12–17). -/
inductive OneShot where
  | Deactivate : OneShot
  | Despawn : OneShot
deriving DecidableEq, Repr

/-- Modelled from the spec: the world transform of the spawner, read once per tick
from the external transform provider; `create_particle` uses its translation
and its rightward axis truncated to 2D. -/
structure SpawnTransform where
  translation : Vec3
  right : Vec2

/-- The uniform draws consumed by one `create_particle` call, one per
randomized field (each field is sampled independently). -/
structure ParticleSample where
  direction_u1 : ℚ
  direction_u2 : ℚ
  speed_u : ℚ
  angular_u : ℚ
  scale_u : ℚ
  gravity_dir_u1 : ℚ
  gravity_dir_u2 : ℚ
  gravity_speed_u : ℚ
  linear_damp_u : ℚ
  angular_damp_u : ℚ
  angular_accel_u : ℚ
  linear_accel_u : ℚ
  lifetime_u : ℚ
  shape_u1 : ℚ
  shape_u2 : ℚ
  shape_u3 : ℚ

/-- Embeds `create_particle` (update.rs lines 230–322). -/
def create_particle (rsqrt : ℚ → ℚ) (effect : Particle2dEffect)
    (transform : SpawnTransform) (smp : ParticleSample) : Particle :=
  let direction :=
    Vec2.normalize_or_zero rsqrt
      ((effect.direction.map (fun m => m.rand smp.direction_u1 smp.direction_u2)).getD Vec2.zero)
  let direction := Vec2.rotate direction transform.right
  let speed := (effect.linear_speed.map (fun s => s.rand smp.speed_u)).getD 0
  let angular := (effect.angular_speed.map (fun s => s.rand smp.angular_u)).getD 0
  let scale := (effect.scale.map (fun s => s.rand smp.scale_u)).getD 0
  let gravity_direction :=
    (Vec2.normalize_or_zero rsqrt
      ((effect.gravity_direction.map
        (fun g => g.rand smp.gravity_dir_u1 smp.gravity_dir_u2)).getD Vec2.zero)).extend 0
  let gravity_speed := (effect.gravity_speed.map (fun g => g.rand smp.gravity_speed_u)).getD 0
  let linear_damp := (effect.linear_damp.map (fun d => d.rand smp.linear_damp_u)).getD 0
  let angular_damp := (effect.angular_damp.map (fun a => a.rand smp.angular_damp_u)).getD 0
  let angular_acceleration :=
    (effect.angular_acceleration.map (fun a => a.rand smp.angular_accel_u)).getD 0
  let linear_acceleration :=
    (effect.linear_acceleration.map (fun a => a.rand smp.linear_accel_u)).getD 0
  let pos :=
    Vec3.add transform.translation
      (match effect.emission_shape with
        | EmissionShape.Point => Vec3.zero
        | EmissionShape.Circle radius =>
            Vec3.smul smp.shape_u3
              (Vec3.smul radius
                (Vec3.normalize_or_zero rsqrt ⟨smp.shape_u1 - 1/2, smp.shape_u2 - 1/2, 0⟩)))
  { start_pos := pos
    scale := scale
    direction := direction
    velocity := ((Vec2.smul speed direction).extend 0).extend angular
    duration_fraction := 0
    duration := effect.lifetime.rand smp.lifetime_u
    color := effect.color.getD LinearRgba.WHITE
    angular_damp := angular_damp
    linear_damp := linear_damp
    angular_acceleration := angular_acceleration
    linear_acceleration := linear_acceleration
    gravity := Vec3.smul gravity_speed gravity_direction
    frame := 0 }

/-- The four curve-dispatch batch loops of `update_spawner`
(update.rs lines 173–224), applied to the whole store. -/
def update_store (rexp : ℚ → ℚ) (effect : Particle2dEffect) (delta : ℚ)
    (store : List (Particle × InstanceData)) : List (Particle × InstanceData) :=
  match effect.scale_curve, effect.color_curve with
  | none, none =>
    store.map (fun pd =>
      let p := { pd.1 with duration_fraction := pd.1.duration_fraction + delta / pd.1.duration }
      let d := pd.2.update_duration_fraction p.duration_fraction
      let d := d.update_transform rexp p
      (p, d))
  | none, some color_curve =>
    store.map (fun pd =>
      let p := { pd.1 with duration_fraction := pd.1.duration_fraction + delta / pd.1.duration }
      let d := pd.2.update_transform rexp p
      let p := { p with color := color_curve p.duration_fraction }
      let d := d.update_duration_fraction p.duration_fraction
      let d := d.update_color p.color
      (p, d))
  | some scale_curve, none =>
    store.map (fun pd =>
      let p := { pd.1 with duration_fraction := pd.1.duration_fraction + delta / pd.1.duration }
      let p := { p with scale := scale_curve p.duration_fraction }
      let d := pd.2.update_duration_fraction p.duration_fraction
      let d := d.update_transform rexp p
      (p, d))
  | some scale_curve, some color_curve =>
    store.map (fun pd =>
      let p := { pd.1 with duration_fraction := pd.1.duration_fraction + delta / pd.1.duration }
      let p := { p with scale := scale_curve p.duration_fraction }
      let p := { p with color := color_curve p.duration_fraction }
      let d := pd.2.update_duration_fraction p.duration_fraction
      let d := d.update_transform rexp p
      let d := d.update_color p.color
      (p, d))

/-- One spawner entity: store, control state, effect-instance snapshot, world
transform and the optional one-shot tag. -/
structure Spawner where
  store : List (Particle × InstanceData)
  state : ParticleSpawnerState
  effect : Option Particle2dEffect
  transform : SpawnTransform
  one_shot : Option OneShot

/-- One tick of `update_spawner` for one spawner (update.rs lines 144–226):
capacity early-return, missing-effect early-return, timer update, conditional
burst of `spawn_amount` particles, one-shot deactivation, the batch update,
and the retention pass.  `smp i` supplies the random draws of the `i`-th
particle of the burst. -/
def update_spawner (rexp rsqrt : ℚ → ℚ) (delta : ℚ) (smp : ℕ → ParticleSample)
    (s : Spawner) : Spawner :=
  if s.state.max_particles ≤ s.store.length then s
  else
    match s.effect with
    | none => s
    | some effect =>
      let timer := (s.state.timer.set_duration effect.spawn_rate).tick delta
      let doSpawn := timer.finished && s.state.active
      let spawned :=
        if doSpawn then
          (List.range effect.spawn_amount).map (fun i =>
            let particle := create_particle rsqrt effect s.transform (smp i)
            (particle, instanceOf rexp particle))
        else []
      let active := if doSpawn && s.one_shot.isSome then false else s.state.active
      let store := update_store rexp effect delta (s.store ++ spawned)
      let store := store.filter (fun pd => pd.1.duration_fraction < 1)
      { s with
        store := store
        state := { s.state with timer := timer, active := active } }

/-- How many particles the tick of `update_spawner` spawns: `spawn_amount`
when the capacity check passes, the effect is present, the (updated) timer is
finished and the spawner is active; `0` otherwise. -/
def spawns_this_tick (delta : ℚ) (s : Spawner) : ℕ :=
  if s.state.max_particles ≤ s.store.length then 0
  else
    match s.effect with
    | none => 0
    | some effect =>
      let timer := (s.state.timer.set_duration effect.spawn_rate).tick delta
      if timer.finished && s.state.active then effect.spawn_amount else 0

/-- A run of consecutive ticks; each element carries the delta of the tick and its
random-draw stream. -/
def run (rexp rsqrt : ℚ → ℚ) (ticks : List (ℚ × (ℕ → ParticleSample)))
    (s : Spawner) : Spawner :=
  ticks.foldl (fun acc t => update_spawner rexp rsqrt t.1 t.2 acc) s

/-- The retirement predicate of `remove_finished_spawner`
(update.rs lines 120–131): the entity is despawned iff it has a `OneShot` tag
matching `Despawn`, is inactive, and its store is empty. -/
def remove_finished_spawner (s : Spawner) : Bool :=
  (match s.one_shot with
    | some OneShot.Despawn => true
    | _ => false)
  && !s.state.active && s.store.isEmpty

/-- Total number of particles spawned along a run of ticks. -/
def total_spawns (rexp rsqrt : ℚ → ℚ) :
    List (ℚ × (ℕ → ParticleSample)) → Spawner → ℕ
  | [], _ => 0
  | t :: ts, s =>
    spawns_this_tick t.1 s + total_spawns rexp rsqrt ts (update_spawner rexp rsqrt t.1 t.2 s)

/-- The min/max fold step of `calculcate_particle_bounds`. -/
def boundsStep (acc : Vec2 × Vec2) (pd : Particle × InstanceData) : Vec2 × Vec2 :=
  (⟨min acc.1.x pd.1.start_pos.x, min acc.1.y pd.1.start_pos.y⟩,
   ⟨max acc.2.x pd.1.start_pos.x, max acc.2.y pd.1.start_pos.y⟩)

/-- Embeds `calculcate_particle_bounds` for one spawner (update.rs lines 324–348):
`none` when the store is empty (no Aabb inserted); otherwise fold min/max of
`start_pos.xy` over every `accuracy`-th particle starting from the zero
vector, and extend both corners with `z = 0`. -/
def calculcate_particle_bounds (store : List (Particle × InstanceData)) :
    Option (Vec3 × Vec3) :=
  if store.isEmpty then none
  else
    let accuracy := (store.length / 1000).max 1 |>.min 10
    let sampled := (store.enum.filter (fun ip => ip.1 % accuracy == 0)).map (fun ip => ip.2)
    let mm := sampled.foldl boundsStep (Vec2.zero, Vec2.zero)
    some (mm.1.extend 0, mm.2.extend 0)

/-! ### Concrete inputs used by witnesses and counterexamples -/

/-- A fixed random stream: every uniform draw is `1/2`. -/
def sampleHalf : ParticleSample :=
  ⟨1/2, 1/2, 1/2, 1/2, 1/2, 1/2, 1/2, 1/2, 1/2, 1/2, 1/2, 1/2, 1/2, 1/2, 1/2, 1/2⟩

/-- A spawner world transform at the origin with the canonical rightward axis. -/
def spawnTf : SpawnTransform := ⟨Vec3.zero, ⟨1, 0⟩⟩

/-- A minimal effect: immediate cadence (`spawn_rate = 0`), bursts of two
particles, fixed lifetime of one second, no optional fields, no curves. -/
def baseEffect : Particle2dEffect :=
  { spawn_rate := 0
    spawn_amount := 2
    emission_shape := EmissionShape.Point
    direction := none
    linear_speed := none
    angular_speed := none
    scale := none
    lifetime := ⟨1, 1⟩
    gravity_direction := none
    gravity_speed := none
    linear_damp := none
    angular_damp := none
    linear_acceleration := none
    angular_acceleration := none
    color := none
    scale_curve := none
    color_curve := none }

/-- A spawner of `baseEffect` with room for only one particle. -/
def tinySpawner : Spawner :=
  { store := []
    state := { max_particles := 1, active := true, timer := ⟨0, 0, false⟩ }
    effect := some baseEffect
    transform := spawnTf
    one_shot := none }

/-- A spawner of `baseEffect` carrying the `Deactivate` one-shot tag. -/
def oneShotSpawner : Spawner :=
  { store := []
    state := { max_particles := 10, active := true, timer := ⟨0, 0, false⟩ }
    effect := some baseEffect
    transform := spawnTf
    one_shot := some OneShot.Deactivate }

/-- A particle that is already past its lifetime (`duration_fraction = 2`). -/
def staleParticle : Particle :=
  { start_pos := Vec3.zero
    direction := ⟨1, 0⟩
    scale := 1
    gravity := Vec3.zero
    duration := 1
    duration_fraction := 2
    velocity := ⟨0, 0, 0, 0⟩
    color := LinearRgba.WHITE
    frame := 0
    linear_acceleration := 0
    linear_damp := 0
    angular_acceleration := 0
    angular_damp := 0 }

/-- A spawner whose store is already at capacity and holds an expired
particle. -/
def fullSpawner : Spawner :=
  { store := [(staleParticle, instanceOf (fun q => q) staleParticle)]
    state := { max_particles := 1, active := true, timer := ⟨0, 0, false⟩ }
    effect := some baseEffect
    transform := spawnTf
    one_shot := none }

/-- Variant of `baseEffect` with the lifetime range fixed at zero: every sampled
lifetime is `0`. -/
def zeroLifeEffect : Particle2dEffect := { baseEffect with lifetime := ⟨0, 0⟩ }

/-- A particle with no damping, no acceleration and no gravity, moving with
`direction = (1,0)` and `speed = 3`, observed at age `1/2 * 2 = 1`. -/
def cvParticle : Particle :=
  { start_pos := ⟨1, 2, 3⟩
    direction := ⟨1, 0⟩
    scale := 1
    gravity := Vec3.zero
    duration := 2
    duration_fraction := 1/2
    velocity := ⟨3, 0, 0, 7⟩
    color := LinearRgba.WHITE
    frame := 0
    linear_acceleration := 0
    linear_damp := 0
    angular_acceleration := 0
    angular_damp := 0 }

/-- The end-to-end effect of the spec: `spawn_rate = 0.1`, `spawn_amount = 1000`,
here with lifetime fixed at a full second. -/
def burstEffect : Particle2dEffect :=
  { baseEffect with spawn_rate := 1/10, spawn_amount := 1000, lifetime := ⟨1, 1⟩ }

/-- Variant of `burstEffect` with the lifetime range fixed at `0.1` seconds — shorter
than the `0.3` second tick. -/
def shortBurstEffect : Particle2dEffect :=
  { burstEffect with lifetime := ⟨1/10, 1/10⟩ }

/-- An idle spawner of `e`: empty store, active, effectively unlimited
capacity, fresh timer. -/
def freshSpawner (e : Particle2dEffect) : Spawner :=
  { store := []
    state := { max_particles := 4294967295, active := true, timer := ⟨0, 0, false⟩ }
    effect := some e
    transform := spawnTf
    one_shot := none }

/-- Variant of `baseEffect` with only a colour curve (no scale curve). -/
def colorOnlyEffect : Particle2dEffect :=
  { baseEffect with color_curve := some (fun _ => ⟨0, 0, 1, 1⟩) }

/-- Variant of `baseEffect` with only a scale curve (no colour curve). -/
def scaleOnlyEffect : Particle2dEffect :=
  { baseEffect with scale_curve := some (fun f => f) }

/-- A one-particle store whose particle sits at `(5, 7)`. -/
def boundsStore : List (Particle × InstanceData) :=
  [({ staleParticle with start_pos := ⟨5, 7, 0⟩, duration_fraction := 0 },
    instanceOf (fun q => q) { staleParticle with start_pos := ⟨5, 7, 0⟩, duration_fraction := 0 })]

/-! ### Helper lemmas -/

theorem update_store_length (rexp : ℚ → ℚ) (e : Particle2dEffect) (delta : ℚ)
    (st : List (Particle × InstanceData)) :
    (update_store rexp e delta st).length = st.length := by
  unfold update_store
  rcases hsc : e.scale_curve with _ | sc <;> rcases hcc : e.color_curve with _ | cc <;>
    simp

theorem update_store_df_duration (rexp : ℚ → ℚ) (e : Particle2dEffect) (delta : ℚ)
    (st : List (Particle × InstanceData)) :
    ∀ pd ∈ update_store rexp e delta st, ∃ q ∈ st,
      pd.1.duration_fraction = q.1.duration_fraction + delta / q.1.duration ∧
      pd.1.duration = q.1.duration := by
  intro pd h
  unfold update_store at h
  rcases hsc : e.scale_curve with _ | sc <;> rcases hcc : e.color_curve with _ | cc <;>
    simp only [hsc, hcc, List.mem_map] at h <;>
    · obtain ⟨q, hq, rfl⟩ := h
      exact ⟨q, hq, rfl, rfl⟩

theorem update_store_scale_mem (rexp : ℚ → ℚ) (e : Particle2dEffect) (delta : ℚ)
    (st : List (Particle × InstanceData)) (hsc : e.scale_curve = none) :
    ∀ pd ∈ update_store rexp e delta st, ∃ q ∈ st, pd.1.scale = q.1.scale := by
  intro pd h
  unfold update_store at h
  rcases hcc : e.color_curve with _ | cc <;>
    simp only [hsc, hcc, List.mem_map] at h <;>
    · obtain ⟨q, hq, rfl⟩ := h
      exact ⟨q, hq, rfl⟩

theorem update_store_color_mem (rexp : ℚ → ℚ) (e : Particle2dEffect) (delta : ℚ)
    (st : List (Particle × InstanceData)) (hcc : e.color_curve = none) :
    ∀ pd ∈ update_store rexp e delta st, ∃ q ∈ st, pd.1.color = q.1.color := by
  intro pd h
  unfold update_store at h
  rcases hsc : e.scale_curve with _ | sc <;>
    simp only [hsc, hcc, List.mem_map] at h <;>
    · obtain ⟨q, hq, rfl⟩ := h
      exact ⟨q, hq, rfl⟩

theorem update_spawner_meta (rexp rsqrt : ℚ → ℚ) (delta : ℚ) (smp : ℕ → ParticleSample)
    (s : Spawner) :
    (update_spawner rexp rsqrt delta smp s).effect = s.effect ∧
    (update_spawner rexp rsqrt delta smp s).transform = s.transform ∧
    (update_spawner rexp rsqrt delta smp s).one_shot = s.one_shot := by
  unfold update_spawner
  split
  · exact ⟨rfl, rfl, rfl⟩
  · rcases heff : s.effect with _ | e <;> simp [heff]

theorem update_spawner_store_cases (rexp rsqrt : ℚ → ℚ) (delta : ℚ)
    (smp : ℕ → ParticleSample) (s : Spawner) :
    (update_spawner rexp rsqrt delta smp s).store = s.store ∨
    ∃ e spawned, s.effect = some e ∧
      (spawned = [] ∨
        spawned = (List.range e.spawn_amount).map (fun i =>
          (create_particle rsqrt e s.transform (smp i),
           instanceOf rexp (create_particle rsqrt e s.transform (smp i))))) ∧
      (update_spawner rexp rsqrt delta smp s).store =
        (update_store rexp e delta (s.store ++ spawned)).filter
          (fun pd => pd.1.duration_fraction < 1) := by
  unfold update_spawner
  split
  · exact Or.inl rfl
  · rcases heff : s.effect with _ | e
    · exact Or.inl (by simp [heff])
    · by_cases hfire :
          (((s.state.timer.set_duration e.spawn_rate).tick delta).finished
            && s.state.active) = true
      · exact Or.inr ⟨e, _, rfl, Or.inr rfl, by simp [heff, hfire]⟩
      · refine Or.inr ⟨e, [], rfl, Or.inl rfl, ?_⟩
        simp only [Bool.not_eq_true] at hfire
        simp [heff, hfire]

theorem spawns_this_tick_inactive (delta : ℚ) (s : Spawner)
    (h : s.state.active = false) : spawns_this_tick delta s = 0 := by
  unfold spawns_this_tick
  split
  · rfl
  · rcases heff : s.effect with _ | e <;> simp [heff, h]

theorem update_spawner_inactive (rexp rsqrt : ℚ → ℚ) (delta : ℚ)
    (smp : ℕ → ParticleSample) (s : Spawner) (h : s.state.active = false) :
    (update_spawner rexp rsqrt delta smp s).state.active = false := by
  unfold update_spawner
  split
  · exact h
  · rcases heff : s.effect with _ | e <;> simp [heff, h]

theorem run_inactive (rexp rsqrt : ℚ → ℚ) (ticks : List (ℚ × (ℕ → ParticleSample))) :
    ∀ s : Spawner, s.state.active = false →
      (run rexp rsqrt ticks s).state.active = false ∧
      total_spawns rexp rsqrt ticks s = 0 := by
  induction ticks with
  | nil => exact fun s h => ⟨h, rfl⟩
  | cons t ts ih =>
    intro s h
    have h1 := update_spawner_inactive rexp rsqrt t.1 t.2 s h
    have h2 := ih (update_spawner rexp rsqrt t.1 t.2 s) h1
    refine ⟨h2.1, ?_⟩
    show spawns_this_tick t.1 s + total_spawns rexp rsqrt ts _ = 0
    rw [spawns_this_tick_inactive t.1 s h, h2.2]

/-- C7: `remove_finished_spawner` retires a spawner exactly when it carries the
`OneShot::Despawn` tag, is inactive, and its particle store is empty; in
particular an inactive spawner with a non-empty store is kept. -/
theorem remove_finished_spawner_iff (s : Spawner) :
    remove_finished_spawner s = true ↔
      s.one_shot = some OneShot.Despawn ∧ s.state.active = false ∧ s.store = [] := by
  unfold remove_finished_spawner
  rcases h : s.one_shot with _ | tag
  · simp
  · cases tag <;> simp [List.isEmpty_iff]

/-- C6: a spawner tagged `OneShot::Deactivate` is deactivated immediately after
its first successful spawn burst (a tick that passes the capacity check, has an
effect, and whose fired timer meets an active flag), and however many further
ticks follow, it stays inactive and spawns zero additional particles. -/
theorem one_shot_deactivate_single_burst (rexp rsqrt : ℚ → ℚ) (delta : ℚ)
    (smp : ℕ → ParticleSample) (s : Spawner) (e : Particle2dEffect)
    (hone : s.one_shot = some OneShot.Deactivate)
    (hcap : s.store.length < s.state.max_particles)
    (heff : s.effect = some e)
    (hfire : ((s.state.timer.set_duration e.spawn_rate).tick delta).finished = true)
    (hact : s.state.active = true) :
    spawns_this_tick delta s = e.spawn_amount ∧
    (update_spawner rexp rsqrt delta smp s).state.active = false ∧
    ∀ ticks : List (ℚ × (ℕ → ParticleSample)),
      (run rexp rsqrt ticks (update_spawner rexp rsqrt delta smp s)).state.active = false ∧
      total_spawns rexp rsqrt ticks (update_spawner rexp rsqrt delta smp s) = 0 := by
  have hnot : ¬ s.state.max_particles ≤ s.store.length := Nat.not_le.mpr hcap
  have hcount : spawns_this_tick delta s = e.spawn_amount := by
    unfold spawns_this_tick
    rw [if_neg hnot, heff]
    simp [hfire, hact]
  have hinact : (update_spawner rexp rsqrt delta smp s).state.active = false := by
    unfold update_spawner
    rw [if_neg hnot, heff]
    simp [hfire, hact, hone]
  exact ⟨hcount, hinact, fun ticks => run_inactive rexp rsqrt ticks _ hinact⟩

/-- C6 witness: `oneShotSpawner` (tagged `Deactivate`) ticked once with its
timer firing: one burst of `spawn_amount` particles, then permanently
inactive and spawn-free. -/
theorem one_shot_deactivate_single_burst_witness :
    spawns_this_tick 0 oneShotSpawner = baseEffect.spawn_amount ∧
    (update_spawner (fun q => q) (fun q => q) 0 (fun _ => sampleHalf)
        oneShotSpawner).state.active = false ∧
    ∀ ticks : List (ℚ × (ℕ → ParticleSample)),
      (run (fun q => q) (fun q => q) ticks
          (update_spawner (fun q => q) (fun q => q) 0 (fun _ => sampleHalf)
            oneShotSpawner)).state.active = false ∧
      total_spawns (fun q => q) (fun q => q) ticks
          (update_spawner (fun q => q) (fun q => q) 0 (fun _ => sampleHalf)
            oneShotSpawner) = 0 :=
  one_shot_deactivate_single_burst (fun q => q) (fun q => q) 0 (fun _ => sampleHalf)
    oneShotSpawner baseEffect rfl (by simp [oneShotSpawner]) rfl
    (by simp [oneShotSpawner, baseEffect, Timer.set_duration, Timer.tick]) rfl

/-- C1 counterexample: `tinySpawner` has `max_particles = 1` and an empty
store; one tick spawns an untruncated burst of two particles, so the store
ends above its capacity ceiling. -/
theorem spawn_capacity_counterexample :
    ¬ (update_spawner (fun q => q) (fun q => q) 0 (fun _ => sampleHalf)
          tinySpawner).store.length ≤ tinySpawner.state.max_particles := by
  have hlen : (update_spawner (fun q => q) (fun q => q) 0 (fun _ => sampleHalf)
      tinySpawner).store.length = 2 := by
    simp [update_spawner, tinySpawner, baseEffect, update_store, Timer.tick,
      Timer.set_duration, List.range_succ, create_particle, instanceOf, spawnTf,
      sampleHalf]
  rw [hlen]
  simp [tinySpawner]

/-- C1 amended: the capacity check precedes spawning (a tick starting at or
above `max_particles` leaves the store unchanged), but a burst is not
truncated, so a tick ends with at most
`max (initial length) (max_particles - 1 + spawn_amount)` particles. -/
theorem store_length_after_tick (rexp rsqrt : ℚ → ℚ) (delta : ℚ)
    (smp : ℕ → ParticleSample) (s : Spawner) (e : Particle2dEffect)
    (heff : s.effect = some e) :
    (update_spawner rexp rsqrt delta smp s).store.length ≤
      max s.store.length (s.state.max_particles - 1 + e.spawn_amount) := by
  unfold update_spawner
  split
  · exact le_max_left _ _
  · rename_i hcap
    simp only [heff]
    by_cases hfire :
        (((s.state.timer.set_duration e.spawn_rate).tick delta).finished
          && s.state.active) = true
    · simp only [hfire, if_true]
      refine le_trans (List.length_filter_le _ _) ?_
      rw [update_store_length]
      have hlt : s.store.length < s.state.max_particles := Nat.not_le.mp hcap
      have : (s.store ++ (List.range e.spawn_amount).map (fun i =>
          (create_particle rsqrt e s.transform (smp i),
           instanceOf rexp (create_particle rsqrt e s.transform (smp i))))).length =
          s.store.length + e.spawn_amount := by simp
      rw [this]
      exact le_trans (by omega) (le_max_right _ _)
    · simp only [Bool.not_eq_true] at hfire
      simp only [hfire, Bool.false_eq_true, if_false, List.append_nil]
      refine le_trans (List.length_filter_le _ _) ?_
      rw [update_store_length]
      exact le_max_left _ _

/-- C1 witness: the amended bound evaluated on `tinySpawner`
(`max_particles = 1`, `spawn_amount = 2`, empty store). -/
theorem store_length_after_tick_witness :
    (update_spawner (fun q => q) (fun q => q) 0 (fun _ => sampleHalf)
        tinySpawner).store.length ≤
      max tinySpawner.store.length
        (tinySpawner.state.max_particles - 1 + baseEffect.spawn_amount) :=
  store_length_after_tick (fun q => q) (fun q => q) 0 (fun _ => sampleHalf)
    tinySpawner baseEffect rfl

/-- C3 counterexample: `fullSpawner` is at capacity, so the tick returns
before the batch update; its expired particle (`duration_fraction = 2`)
survives the tick even though the claim says no such particle may remain. -/
theorem retention_skipped_counterexample :
    (update_spawner (fun q => q) (fun q => q) 1 (fun _ => sampleHalf)
        fullSpawner).store.any (fun pd => 1 ≤ pd.1.duration_fraction) = true := by
  have hstore : (update_spawner (fun q => q) (fun q => q) 1 (fun _ => sampleHalf)
      fullSpawner).store = fullSpawner.store := by
    unfold update_spawner
    rw [if_pos (by simp [fullSpawner])]
  rw [hstore]
  simp [fullSpawner, staleParticle]

/-- C3 amended: a tick that passes the capacity check and has an effect
instance ends with the retention pass, so afterwards every stored particle has
`duration_fraction < 1`; a tick that returns early (store at capacity or
effect missing) skips the pass and may keep expired particles. -/
theorem retention_after_tick (rexp rsqrt : ℚ → ℚ) (delta : ℚ)
    (smp : ℕ → ParticleSample) (s : Spawner) (e : Particle2dEffect)
    (hcap : s.store.length < s.state.max_particles) (heff : s.effect = some e) :
    ∀ pd ∈ (update_spawner rexp rsqrt delta smp s).store,
      pd.1.duration_fraction < 1 := by
  intro pd hpd
  unfold update_spawner at hpd
  rw [if_neg (Nat.not_le.mpr hcap)] at hpd
  simp only [heff] at hpd
  simp only [List.mem_filter] at hpd
  exact of_decide_eq_true hpd.2

/-- C3 witness: after ticking `tinySpawner` (below capacity, effect present),
every stored particle is strictly younger than its lifetime. -/
theorem retention_after_tick_witness :
    ((update_spawner (fun q => q) (fun q => q) 0 (fun _ => sampleHalf)
        tinySpawner).store.all (fun pd => pd.1.duration_fraction < 1)) = true :=
  List.all_eq_true.mpr (fun pd hpd => decide_eq_true
    (retention_after_tick (fun q => q) (fun q => q) 0 (fun _ => sampleHalf)
      tinySpawner baseEffect (by simp [tinySpawner]) rfl pd hpd))

/-- C2: `create_particle` stores the sampled lifetime with no clamping
(update.rs line 313), so an effect whose lifetime range is fixed at `0`
produces a particle with `duration = 0`, contradicting the required strictly
positive minimum; the per-tick `delta / duration` then divides by zero. -/
theorem create_particle_zero_lifetime :
    (create_particle (fun q => q) zeroLifeEffect spawnTf sampleHalf).duration = 0 := by
  simp [create_particle, zeroLifeEffect, baseEffect, spawnTf, sampleHalf, Rval.rand]

/-- C4: with zero damping, zero acceleration and zero gravity, the closed-form
transform is pure constant-velocity motion: the translation at age
`t = duration_fraction * duration` is exactly `start_pos + velocity.xyz * t`,
which for a spawn-packed velocity equals `start_pos + direction * speed * t`. -/
theorem constant_velocity_displacement (rexp : ℚ → ℚ) (p : Particle) (speed : ℚ)
    (hexp : rexp 0 = 1)
    (hld : p.linear_damp = 0) (had : p.angular_damp = 0)
    (hla : p.linear_acceleration = 0) (haa : p.angular_acceleration = 0)
    (hg : p.gravity = Vec3.zero)
    (hv : p.velocity = ((Vec2.smul speed p.direction).extend 0).extend p.velocity.w) :
    (p.get_transform rexp).translation =
      Vec3.add p.start_pos
        (Vec3.smul (p.duration_fraction * p.duration) p.velocity.xyz) ∧
    (p.get_transform rexp).translation =
      Vec3.add p.start_pos
        ((Vec2.smul (speed * (p.duration_fraction * p.duration)) p.direction).extend 0) := by
  unfold Particle.get_transform
  constructor
  · simp only [hld, had, hla, haa, hg, neg_zero, zero_mul, mul_zero, hexp]
    simp [Vec3.add, Vec3.smul, Vec2.smul, Vec2.extend, Vec3.extend, Vec4.xyz,
      Vec3.zero]
  · simp only [hld, had, hla, haa, hg, neg_zero, zero_mul, mul_zero, hexp]
    rw [hv]
    simp [Vec3.add, Vec3.smul, Vec2.smul, Vec2.extend, Vec3.extend, Vec4.xyz,
      Vec3.zero]
    exact ⟨by ring, by ring⟩

/-- C4 witness: `cvParticle` (damping, acceleration and gravity all zero,
velocity packed from `direction = (1,0)`, `speed = 3`). -/
theorem constant_velocity_displacement_witness :
    (cvParticle.get_transform (fun _ => 1)).translation =
      Vec3.add cvParticle.start_pos
        (Vec3.smul (cvParticle.duration_fraction * cvParticle.duration)
          cvParticle.velocity.xyz) ∧
    (cvParticle.get_transform (fun _ => 1)).translation =
      Vec3.add cvParticle.start_pos
        ((Vec2.smul (3 * (cvParticle.duration_fraction * cvParticle.duration))
          cvParticle.direction).extend 0) :=
  constant_velocity_displacement (fun _ => 1) cvParticle 3 rfl rfl rfl rfl rfl rfl
    (by norm_num [cvParticle, Vec2.smul, Vec2.extend, Vec3.extend])

theorem timer_fires_first_tick (t : Timer) (rate : ℚ) (hrate : rate = 1/10)
    (helap : 0 ≤ t.elapsed) : ((t.set_duration rate).tick (3/10)).finished = true := by
  unfold Timer.set_duration Timer.tick
  rw [hrate]
  rw [if_neg (by norm_num)]
  rw [if_pos (by simp only []; linarith)]

/-- C5 amended: for an effect with `spawn_rate = 0.1` and
`spawn_amount = 1000`, an active spawner with an empty store and room to spawn,
ticked once with `delta = 0.3`, fires its timer at most once and emits exactly
one burst of 1000 particles; the store then holds exactly 1000 particles
provided every sampled lifetime exceeds the 0.3-second delta (otherwise the
retention pass of the same tick removes the short-lived ones). -/
theorem burst_once_leaves_1000 (rexp rsqrt : ℚ → ℚ) (smp : ℕ → ParticleSample)
    (s : Spawner) (e : Particle2dEffect)
    (heff : s.effect = some e) (hrate : e.spawn_rate = 1/10)
    (hamount : e.spawn_amount = 1000)
    (hstore : s.store = []) (hact : s.state.active = true)
    (hmax : 0 < s.state.max_particles)
    (helap : 0 ≤ s.state.timer.elapsed)
    (hlife : ∀ i, 3/10 < (create_particle rsqrt e s.transform (smp i)).duration) :
    (update_spawner rexp rsqrt (3/10) smp s).store.length = 1000 := by
  have hcap : ¬ s.state.max_particles ≤ s.store.length := by
    rw [hstore]
    simpa using Nat.pos_iff_ne_zero.mp hmax
  have hfire : (((s.state.timer.set_duration e.spawn_rate).tick (3/10)).finished
      && s.state.active) = true := by
    rw [timer_fires_first_tick s.state.timer e.spawn_rate hrate helap, hact]
    rfl
  unfold update_spawner
  rw [if_neg hcap]
  simp only [heff, hfire, if_true]
  have hall : ∀ pd ∈ update_store rexp e (3/10)
      (s.store ++ (List.range e.spawn_amount).map (fun i =>
        (create_particle rsqrt e s.transform (smp i),
         instanceOf rexp (create_particle rsqrt e s.transform (smp i))))),
      pd.1.duration_fraction < 1 := by
    intro pd hpd
    obtain ⟨q, hq, hdf, hdur⟩ := update_store_df_duration rexp e (3/10) _ pd hpd
    rw [hstore, List.nil_append, List.mem_map] at hq
    obtain ⟨i, _, rfl⟩ := hq
    have hd := hlife i
    have hpos : (0:ℚ) < (create_particle rsqrt e s.transform (smp i)).duration := by
      linarith
    rw [hdf]
    show (create_particle rsqrt e s.transform (smp i)).duration_fraction +
        (3/10) / (create_particle rsqrt e s.transform (smp i)).duration < 1
    have hzero : (create_particle rsqrt e s.transform (smp i)).duration_fraction = 0 := rfl
    rw [hzero, zero_add]
    exact (div_lt_one hpos).mpr hd
  rw [List.filter_eq_self.mpr (fun pd hpd => decide_eq_true (hall pd hpd))]
  rw [update_store_length]
  simp [hstore, hamount]

/-- C5 counterexample: the very same setup with the lifetime range fixed at
`0.1` seconds leaves 0 particles, not 1000 — the burst is spawned but the same
retention pass of the same tick removes every particle (`duration_fraction = 3 ≥ 1`). -/
theorem burst_killed_by_retention_counterexample :
    (update_spawner (fun q => q) (fun q => q) (3/10) (fun _ => sampleHalf)
        (freshSpawner shortBurstEffect)).store.length = 0 := by
  have hcap : ¬ (freshSpawner shortBurstEffect).state.max_particles ≤
      (freshSpawner shortBurstEffect).store.length := by
    simp [freshSpawner]
  have hfire : ((((freshSpawner shortBurstEffect).state.timer.set_duration
      shortBurstEffect.spawn_rate).tick (3/10)).finished
      && (freshSpawner shortBurstEffect).state.active) = true := by
    rw [timer_fires_first_tick _ _ (by norm_num [shortBurstEffect, burstEffect])
      (by norm_num [freshSpawner])]
    rfl
  unfold update_spawner
  rw [if_neg hcap]
  simp only [show (freshSpawner shortBurstEffect).effect = some shortBurstEffect from rfl,
    hfire, if_true]
  have hnone : ∀ pd ∈ update_store (fun q : ℚ => q) shortBurstEffect (3/10)
      ((freshSpawner shortBurstEffect).store ++
        (List.range shortBurstEffect.spawn_amount).map (fun i =>
          (create_particle (fun q => q) shortBurstEffect
            (freshSpawner shortBurstEffect).transform ((fun _ => sampleHalf) i),
           instanceOf (fun q => q) (create_particle (fun q => q) shortBurstEffect
            (freshSpawner shortBurstEffect).transform ((fun _ => sampleHalf) i))))),
      ¬ (pd.1.duration_fraction < 1) := by
    intro pd hpd
    obtain ⟨q, hq, hdf, hdur⟩ := update_store_df_duration _ _ _ _ pd hpd
    have hq2 : q ∈ (List.range shortBurstEffect.spawn_amount).map (fun i =>
        (create_particle (fun q : ℚ => q) shortBurstEffect
          (freshSpawner shortBurstEffect).transform sampleHalf,
         instanceOf (fun q : ℚ => q) (create_particle (fun q : ℚ => q) shortBurstEffect
          (freshSpawner shortBurstEffect).transform sampleHalf))) := by
      simpa [freshSpawner] using hq
    rw [List.mem_map] at hq2
    obtain ⟨i, _, rfl⟩ := hq2
    have hd : (create_particle (fun q : ℚ => q) shortBurstEffect
        (freshSpawner shortBurstEffect).transform sampleHalf).duration = 1/10 := by
      simp [create_particle, shortBurstEffect, burstEffect, baseEffect, Rval.rand]
    have hz : (create_particle (fun q : ℚ => q) shortBurstEffect
        (freshSpawner shortBurstEffect).transform sampleHalf).duration_fraction = 0 := rfl
    rw [hdf, hz, hd, zero_add]
    norm_num
  rw [List.filter_eq_nil_iff.mpr (fun pd hpd => by
    simpa using decide_eq_false (hnone pd hpd))]
  rfl

/-- C5 witness: the amended statement on the concrete `burstEffect`
(lifetime fixed at one second, longer than the 0.3-second delta): exactly 1000
particles remain after the single tick. -/
theorem burst_once_leaves_1000_witness :
    (update_spawner (fun q => q) (fun q => q) (3/10) (fun _ => sampleHalf)
        (freshSpawner burstEffect)).store.length = 1000 :=
  burst_once_leaves_1000 (fun q => q) (fun q => q) (fun _ => sampleHalf)
    (freshSpawner burstEffect) burstEffect rfl rfl rfl rfl rfl (by simp [freshSpawner])
    (by norm_num [freshSpawner])
    (fun i => by
      have : (create_particle (fun q : ℚ => q) burstEffect
          (freshSpawner burstEffect).transform sampleHalf).duration = 1 := by
        simp [create_particle, burstEffect, baseEffect, Rval.rand]
      rw [show ((fun _ : ℕ => sampleHalf) i) = sampleHalf from rfl, this]
      norm_num)

/-- C8: the curve-dispatch batch pass is a positional `List.map`: with no
scale curve present, the particle in each slot keeps exactly its own `scale`
(the slot-by-slot projection of the output store equals that of the input
store), and with no colour curve each slot keeps its own `color`.  Moreover a
full tick only ever applies this map to the pre-tick store extended with the
freshly spawned particles (each carrying its spawn-sampled value in the field)
and then drops expired slots wholesale with a filter that never alters a
surviving pair — so composing ticks, a particle keeps exactly its own
spawn-sampled scale (resp. colour) over its entire lifetime. -/
theorem curve_dispatch_keeps_fields (rexp rsqrt : ℚ → ℚ) (delta : ℚ)
    (smp : ℕ → ParticleSample) (s : Spawner) (e : Particle2dEffect)
    (heff : s.effect = some e) :
    (e.scale_curve = none → ∀ st : List (Particle × InstanceData),
      (update_store rexp e delta st).map (fun pd => pd.1.scale) =
        st.map (fun pd => pd.1.scale)) ∧
    (e.color_curve = none → ∀ st : List (Particle × InstanceData),
      (update_store rexp e delta st).map (fun pd => pd.1.color) =
        st.map (fun pd => pd.1.color)) ∧
    ((update_spawner rexp rsqrt delta smp s).store = s.store ∨
      ∃ spawned : List (Particle × InstanceData),
        (spawned = [] ∨ spawned = (List.range e.spawn_amount).map (fun i =>
          (create_particle rsqrt e s.transform (smp i),
           instanceOf rexp (create_particle rsqrt e s.transform (smp i))))) ∧
        (update_spawner rexp rsqrt delta smp s).store =
          (update_store rexp e delta (s.store ++ spawned)).filter
            (fun pd => pd.1.duration_fraction < 1)) := by
  refine ⟨?_, ?_, ?_⟩
  · intro hsc st
    unfold update_store
    rcases hcc : e.color_curve with _ | cc <;> simp [hsc, hcc, List.map_map]
  · intro hcc st
    unfold update_store
    rcases hsc : e.scale_curve with _ | sc <;> simp [hsc, hcc, List.map_map]
  · rcases update_spawner_store_cases rexp rsqrt delta smp s with
      hsame | ⟨e2, spawned, heff2, hsp, hstore⟩
    · exact Or.inl hsame
    · have he2 : e2 = e := by
        rw [heff] at heff2
        exact (Option.some_injective _ heff2).symm
      subst he2
      exact Or.inr ⟨spawned, hsp, hstore⟩

/-- C8 witness: the positional statement evaluated on `tinySpawner`, whose
effect `baseEffect` has neither curve: both slot-by-slot projections are
preserved for every store, and the concrete tick decomposes into the batch
map over the pre-store plus burst followed by the retention filter. -/
theorem curve_dispatch_keeps_fields_witness :
    (baseEffect.scale_curve = none → ∀ st : List (Particle × InstanceData),
      (update_store (fun q => q) baseEffect 0 st).map (fun pd => pd.1.scale) =
        st.map (fun pd => pd.1.scale)) ∧
    (baseEffect.color_curve = none → ∀ st : List (Particle × InstanceData),
      (update_store (fun q => q) baseEffect 0 st).map (fun pd => pd.1.color) =
        st.map (fun pd => pd.1.color)) ∧
    ((update_spawner (fun q => q) (fun q => q) 0 (fun _ => sampleHalf)
        tinySpawner).store = tinySpawner.store ∨
      ∃ spawned : List (Particle × InstanceData),
        (spawned = [] ∨ spawned = (List.range baseEffect.spawn_amount).map (fun i =>
          (create_particle (fun q => q) baseEffect tinySpawner.transform
            ((fun _ => sampleHalf) i),
           instanceOf (fun q => q) (create_particle (fun q => q) baseEffect
            tinySpawner.transform ((fun _ => sampleHalf) i))))) ∧
        (update_spawner (fun q => q) (fun q => q) 0 (fun _ => sampleHalf)
            tinySpawner).store =
          (update_store (fun q => q) baseEffect 0 (tinySpawner.store ++ spawned)).filter
            (fun pd => pd.1.duration_fraction < 1)) :=
  curve_dispatch_keeps_fields (fun q => q) (fun q => q) 0 (fun _ => sampleHalf)
    tinySpawner baseEffect rfl

theorem boundsFold_mono (l : List (Particle × InstanceData)) :
    ∀ acc : Vec2 × Vec2,
      (l.foldl boundsStep acc).1.x ≤ acc.1.x ∧ (l.foldl boundsStep acc).1.y ≤ acc.1.y ∧
      acc.2.x ≤ (l.foldl boundsStep acc).2.x ∧ acc.2.y ≤ (l.foldl boundsStep acc).2.y := by
  induction l with
  | nil => exact fun acc => ⟨le_refl _, le_refl _, le_refl _, le_refl _⟩
  | cons a l ih =>
    intro acc
    have h := ih (boundsStep acc a)
    refine ⟨le_trans h.1 (min_le_left _ _), le_trans h.2.1 (min_le_left _ _),
      le_trans (le_max_left _ _) h.2.2.1, le_trans (le_max_left _ _) h.2.2.2⟩

theorem boundsFold_mem (l : List (Particle × InstanceData)) :
    ∀ acc : Vec2 × Vec2, ∀ pd ∈ l,
      (l.foldl boundsStep acc).1.x ≤ pd.1.start_pos.x ∧
      pd.1.start_pos.x ≤ (l.foldl boundsStep acc).2.x ∧
      (l.foldl boundsStep acc).1.y ≤ pd.1.start_pos.y ∧
      pd.1.start_pos.y ≤ (l.foldl boundsStep acc).2.y := by
  induction l with
  | nil => intro acc pd hpd; exact absurd hpd (List.not_mem_nil pd)
  | cons a l ih =>
    intro acc pd hpd
    rcases List.mem_cons.mp hpd with rfl | h
    · have hm := boundsFold_mono l (boundsStep acc pd)
      exact ⟨le_trans hm.1 (min_le_right _ _), le_trans (le_max_right _ _) hm.2.2.1,
        le_trans hm.2.1 (min_le_right _ _), le_trans (le_max_right _ _) hm.2.2.2⟩
    · exact ih (boundsStep acc a) pd h

/-- C9: the bounds estimator yields no box for an empty store; for a non-empty
store it returns the min/max fold of `start_pos.xy` over every `accuracy`-th
particle (`accuracy = clamp(len/1000, 1, 10)`), extended with a zero z-extent,
and the box contains the xy position of every sampled particle. -/
theorem particle_bounds_spec (store : List (Particle × InstanceData)) :
    (store = [] → calculcate_particle_bounds store = none) ∧
    (store ≠ [] →
      ∃ mn mx : Vec2,
        calculcate_particle_bounds store = some (mn.extend 0, mx.extend 0) ∧
        ∀ i, ∀ hi : i < store.length,
          i % ((store.length / 1000).max 1).min 10 = 0 →
            mn.x ≤ store[i].1.start_pos.x ∧ store[i].1.start_pos.x ≤ mx.x ∧
            mn.y ≤ store[i].1.start_pos.y ∧ store[i].1.start_pos.y ≤ mx.y) := by
  constructor
  · intro h
    rw [h]
    rfl
  · intro h
    have hne : store.isEmpty = false := by
      rw [List.isEmpty_eq_false]
      exact h
    unfold calculcate_particle_bounds
    rw [hne]
    simp only [Bool.false_eq_true, if_false]
    refine ⟨_, _, rfl, ?_⟩
    intro i hi hmod
    have hienum : i < store.enum.length := by
      rw [List.enum_length]
      exact hi
    have henum : (i, store[i]) ∈ store.enum := by
      rw [List.mem_enum_iff_getElem?]
      exact List.getElem?_eq_getElem hi
    have hfilter : (i, store[i]) ∈ store.enum.filter
        (fun ip => ip.1 % ((store.length / 1000).max 1).min 10 == 0) := by
      rw [List.mem_filter]
      exact ⟨henum, by simpa using hmod⟩
    have hsampled : store[i] ∈ (store.enum.filter
        (fun ip => ip.1 % ((store.length / 1000).max 1).min 10 == 0)).map
          (fun ip => ip.2) :=
      List.mem_map_of_mem (fun ip => ip.2) hfilter
    have hb := boundsFold_mem _ (Vec2.zero, Vec2.zero) store[i] hsampled
    exact ⟨hb.1, hb.2.1, hb.2.2.1, hb.2.2.2⟩

/-- C9 witness: on the one-particle store at `(5, 7)` the estimator produces a
box, and the sampled particle is inside it; on the empty store it produces
none. -/
theorem particle_bounds_spec_witness :
    calculcate_particle_bounds [] = none ∧
    ∃ mn mx : Vec2,
      calculcate_particle_bounds boundsStore = some (mn.extend 0, mx.extend 0) ∧
      ∀ i, ∀ hi : i < boundsStore.length,
        i % ((boundsStore.length / 1000).max 1).min 10 = 0 →
          mn.x ≤ boundsStore[i].1.start_pos.x ∧ boundsStore[i].1.start_pos.x ≤ mx.x ∧
          mn.y ≤ boundsStore[i].1.start_pos.y ∧ boundsStore[i].1.start_pos.y ≤ mx.y :=
  ⟨(particle_bounds_spec []).1 rfl,
   (particle_bounds_spec boundsStore).2 (by simp [boundsStore])⟩

/-- C10: because the min/max fold of the bounds estimator starts from the zero
vector rather than from the first sampled particle, the box of any non-empty
store always contains the origin: its min is componentwise at most 0 and its
max componentwise at least 0. -/
theorem particle_bounds_contain_origin (store : List (Particle × InstanceData))
    (h : store ≠ []) :
    ∃ mn mx : Vec3,
      calculcate_particle_bounds store = some (mn, mx) ∧
      mn.x ≤ 0 ∧ mn.y ≤ 0 ∧ mn.z = 0 ∧ 0 ≤ mx.x ∧ 0 ≤ mx.y ∧ mx.z = 0 := by
  have hne : store.isEmpty = false := by
    rw [List.isEmpty_eq_false]
    exact h
  unfold calculcate_particle_bounds
  rw [hne]
  simp only [Bool.false_eq_true, if_false]
  refine ⟨_, _, rfl, ?_, ?_, rfl, ?_, ?_, rfl⟩
  · exact (boundsFold_mono _ (Vec2.zero, Vec2.zero)).1
  · exact (boundsFold_mono _ (Vec2.zero, Vec2.zero)).2.1
  · exact (boundsFold_mono _ (Vec2.zero, Vec2.zero)).2.2.1
  · exact (boundsFold_mono _ (Vec2.zero, Vec2.zero)).2.2.2

/-- C10 witness: the one-particle store at `(5, 7)` — every coordinate of the
particle is positive, yet the box still reaches down to the origin. -/
theorem particle_bounds_contain_origin_witness :
    ∃ mn mx : Vec3,
      calculcate_particle_bounds boundsStore = some (mn, mx) ∧
      mn.x ≤ 0 ∧ mn.y ≤ 0 ∧ mn.z = 0 ∧ 0 ≤ mx.x ∧ 0 ≤ mx.y ∧ mx.z = 0 :=
  particle_bounds_contain_origin boundsStore (by simp [boundsStore])

end Enoki
